import Mathlib

/-!
Verification development for the MF-Chatbot RAG pipeline.

Text is modelled as `List Char` (the program's strings).  The language-model
boundary (`_call_llm`) is modelled as a function from (prompt, system prompt)
to `Except error answer`; the vector-search boundary (ChromaDB nearest-neighbor
query plus the sentence-transformer embedding) is modelled by passing the
candidate chunk list as a parameter.  Everything downstream of those
boundaries is translated directly from the source files
`rag_system.py`, `faq_assistant.py` and `citation_handler.py`.
-/

set_option maxRecDepth 16384

abbrev Str := List Char

/-- The apostrophe character, used to build string constants. -/
def apoC : Char := Char.ofNat 39

def apoS : Str := [apoC]

/-- Python `str.lower()` (ASCII case mapping, which covers all inputs used). -/
def pyLower (s : Str) : Str := s.map Char.toLower

/-- The characters Python's `str.strip()` / regex `\s` treat as whitespace. -/
def isPySpace (c : Char) : Bool :=
  c == ' ' || c == '\t' || c == '\n' || c == '\r' || c == '\x0b' || c == '\x0c'

/-- Python `str.strip()`: drop whitespace from both ends. -/
def pyStrip (s : Str) : Str :=
  ((s.dropWhile isPySpace).reverse.dropWhile isPySpace).reverse

/-- Python `needle in haystack` (substring containment). -/
def containsSub (hay needle : Str) : Bool :=
  needle.isPrefixOf hay ||
    match hay with
    | [] => false
    | _ :: t => containsSub t needle

/-- Python `str.rfind(c)`: index of the last occurrence of `c`, `-1` if absent. -/
def rfindC : Str → Char → Int
  | [], _ => -1
  | a :: t, c =>
    let r := rfindC t c
    if r ≥ 0 then r + 1 else if a == c then 0 else -1

/-- Clamp a Python slice index to `[0, n]`, resolving negative indices. -/
def pyIdxClamp (n : Nat) (i : Int) : Nat :=
  let j := if i < 0 then i + n else i
  if j < 0 then 0 else min j.toNat n

/-- Python slice `s[a:b]`. -/
def pySlice (l : Str) (a b : Int) : Str :=
  (l.take (pyIdxClamp l.length b)).drop (pyIdxClamp l.length a)

/-- The loop of `RAGSystem.chunk_documents` (rag_system.py lines 43-64),
run with explicit fuel; `none` means the fuel ran out before the loop
condition `start < text_length` became false.  `start` is an `Int` because
Python's `start` can become negative (as it does when `overlap` exceeds the
advance).  The float test `break_point > chunk_size * 0.5` is the exact
integer test `2 * break_point > chunk_size`. -/
def chunkLoop (text : Str) (size overlap : Nat) :
    Nat → Int → List Str → Option (List Str)
  | 0, _, _ => none
  | fuel + 1, start, acc =>
    if start < (text.length : Int) then
      let endP : Int := start + size
      let chunk0 := pySlice text start endP
      let step : Str × Int :=
        if endP < (text.length : Int) then
          let lastPeriod := rfindC chunk0 '.'
          let lastNewline := rfindC chunk0 '\n'
          let breakPoint := max lastPeriod lastNewline
          if 2 * breakPoint > (size : Int) then
            (pySlice text start (start + breakPoint + 1),
             start + breakPoint + 1 - overlap)
          else
            (chunk0, endP - overlap)
        else
          (chunk0, endP)
      let acc2 := if (pyStrip step.1).isEmpty then acc else acc ++ [pyStrip step.1]
      chunkLoop text size overlap fuel step.2 acc2
    else
      some acc

/-- `RAGSystem.chunk_documents` (rag_system.py lines 34-65).  The early return
`if not text or len(text.strip()) < chunk_size: return [text] if text else []`
is fuel-independent; the sliding-window loop carries the fuel. -/
def chunk_documents (fuel : Nat) (text : Str) (size overlap : Nat) :
    Option (List Str) :=
  if text.isEmpty || (pyStrip text).length < size then
    if text.isEmpty then some [] else some [text]
  else
    chunkLoop text size overlap fuel 0 []

lemma dropWhile_suffix' (p : Char → Bool) (l : Str) : l.dropWhile p <:+ l := by
  induction l with
  | nil => simp
  | cons a l ih =>
    rw [List.dropWhile_cons]
    by_cases hp : p a
    · simp only [hp, if_true]
      exact ih.trans (List.suffix_cons a l)
    · simp [hp]

lemma length_pyStrip_le (s : Str) : (pyStrip s).length ≤ s.length := by
  unfold pyStrip
  calc ((s.dropWhile isPySpace).reverse.dropWhile isPySpace).reverse.length
      = ((s.dropWhile isPySpace).reverse.dropWhile isPySpace).length := by
        simp
    _ ≤ (s.dropWhile isPySpace).reverse.length :=
        ((dropWhile_suffix' _ _).sublist).length_le
    _ = (s.dropWhile isPySpace).length := by simp
    _ ≤ s.length := ((dropWhile_suffix' _ _).sublist).length_le

lemma dropWhile_eq_cons_imp {p : Char → Bool} {l t : Str} {c : Char}
    (h : l.dropWhile p = c :: t) : p c = false := by
  induction l with
  | nil => simp [List.dropWhile] at h
  | cons a l ih =>
    rw [List.dropWhile_cons] at h
    by_cases hp : p a
    · simp [hp] at h; exact ih h
    · simp [hp] at h
      rcases h with ⟨h1, _⟩
      subst h1
      simpa using hp

lemma dropWhile_of_head_false {p : Char → Bool} {c : Char} {t : Str}
    (h : p c = false) : (c :: t).dropWhile p = c :: t := by
  simp [List.dropWhile_cons, h]

lemma dropWhile_idem (p : Char → Bool) (l : Str) :
    (l.dropWhile p).dropWhile p = l.dropWhile p := by
  cases h : l.dropWhile p with
  | nil => simp
  | cons c t =>
    have := dropWhile_eq_cons_imp h
    exact dropWhile_of_head_false this

lemma pyStrip_idem (l : Str) : pyStrip (pyStrip l) = pyStrip l := by
  unfold pyStrip
  set p := isPySpace with hp
  set u := l.dropWhile p with hu
  set w := u.reverse.dropWhile p with hw
  -- `pyStrip l = w.reverse`; it is a prefix of `u`
  have hpre : w.reverse <+: u := by
    have : w <:+ u.reverse := dropWhile_suffix' p u.reverse
    have := List.reverse_prefix.mpr this
    simpa using this
  have step1 : w.reverse.dropWhile p = w.reverse := by
    cases hv : w.reverse with
    | nil => simp
    | cons c t =>
      -- head of the prefix equals head of `u`, whose head fails `p`
      rcases hpre with ⟨r, hr⟩
      rw [hv] at hr
      have hc : p c = false := by
        apply dropWhile_eq_cons_imp (p := p) (l := l) (t := t ++ r)
        rw [← hu, ← hr, List.cons_append]
      exact dropWhile_of_head_false hc
  rw [step1]
  have step2 : w.reverse.reverse.dropWhile p = w := by
    rw [List.reverse_reverse, hw, dropWhile_idem]
  rw [step2]

lemma rfindC_eq_neg_one {l : Str} {c : Char} (h : c ∉ l) : rfindC l c = -1 := by
  induction l with
  | nil => rfl
  | cons a t ih =>
    simp only [List.mem_cons, not_or] at h
    rw [rfindC]
    simp only [ih h.2]
    norm_num
    exact fun hac => h.1 hac.symm

lemma mem_pySlice {l : Str} {a b : Int} {x : Char} (h : x ∈ pySlice l a b) :
    x ∈ l := by
  unfold pySlice at h
  exact (List.take_sublist _ _).subset ((List.drop_sublist _ _).subset h)

/-- With `chunk_size = 2` and `overlap = 100 > 2`-style parameters the loop's
`start` strictly DECREASES: from any `start ≤ 0` one iteration on the text
"abcd" goes to `start - 3`, so the loop never ends, whatever the fuel. -/
lemma c4_loop_aux : ∀ (fuel : Nat) (s : Int) (acc : List Str), s ≤ 0 →
    chunkLoop "abcd".data 2 5 fuel s acc = none := by
  intro fuel
  induction fuel with
  | zero => intro s acc _; rfl
  | succ n ih =>
    intro s acc hs
    have hdot : rfindC (pySlice "abcd".data s (s + (2 : Nat))) '.' = -1 :=
      rfindC_eq_neg_one fun hm =>
        (by decide : '.' ∉ ("abcd".data : Str)) (mem_pySlice hm)
    have hnl : rfindC (pySlice "abcd".data s (s + (2 : Nat))) '\n' = -1 :=
      rfindC_eq_neg_one fun hm =>
        (by decide : '\n' ∉ ("abcd".data : Str)) (mem_pySlice hm)
    rw [chunkLoop]
    rw [if_pos (by norm_num; omega)]
    dsimp only
    rw [if_pos (by norm_num; omega)]
    rw [hdot, hnl]
    rw [if_neg (by norm_num)]
    dsimp only
    apply ih
    omega

/-- Claim C4 (code_bug evidence): `chunk_documents("abcd", chunk_size=2,
overlap=5)` never terminates — the implementation has no clamp, `start`
decreases by 3 each iteration, and no amount of fuel makes the loop finish.
The spec's required invariant (start strictly increases every iteration) is
violated by the code. -/
theorem c4_chunk_loop_nontermination :
    ∀ fuel : Nat, chunk_documents fuel "abcd".data 2 5 = none := by
  intro fuel
  rw [chunk_documents]
  rw [if_neg (by decide)]
  exact c4_loop_aux fuel 0 [] (by norm_num)

/-- Claim C5 (counterexample): for the non-empty text `" a "` (shorter than the
window) the code returns the raw text `" a "`, NOT the trimmed text `"a"` the
claim demands. -/
theorem c5_counterexample :
    chunk_documents 1 (" a ".data) 800 100 = some [" a ".data] ∧
    pyStrip (" a ".data) ≠ (" a ".data : Str) := by
  exact ⟨rfl, by decide⟩

/-- Claim C5 (amended): for every non-empty text shorter than the window,
`chunk_documents` returns exactly one chunk equal to the ORIGINAL text
(untrimmed); for empty text it returns the empty sequence. -/
theorem c5_short_text_single_chunk (fuel : Nat) (text : Str)
    (size overlap : Nat) :
    (text ≠ [] → text.length < size →
      chunk_documents fuel text size overlap = some [text]) ∧
    chunk_documents fuel [] size overlap = some [] := by
  constructor
  · intro hne hlt
    have h1 : (pyStrip text).length < size :=
      lt_of_le_of_lt (length_pyStrip_le text) hlt
    have h2 : text.isEmpty = false := by
      cases text with
      | nil => exact absurd rfl hne
      | cons a t => rfl
    rw [chunk_documents]
    rw [if_pos (by simp [h1, h2])]
    rw [if_neg (by simp [h2])]
  · rfl

theorem c5_witness :
    ("ab".data : Str) ≠ [] ∧ ("ab".data : Str).length < 800 ∧
    chunk_documents 7 ("ab".data) 800 100 = some ["ab".data] ∧
    chunk_documents 7 ([] : Str) 800 100 = some [] :=
  ⟨by decide, by decide,
   (c5_short_text_single_chunk 7 ("ab".data) 800 100).1 (by decide) (by decide),
   (c5_short_text_single_chunk 7 [] 800 100).2⟩

/-- Claim C6 (counterexample): the non-empty whitespace-only text `" "` is
returned unchanged as a single chunk that consists only of whitespace,
contradicting the claim that no chunk is whitespace-only. -/
theorem c6_counterexample :
    chunk_documents 1 (" ".data) 800 100 = some [" ".data] ∧
    pyStrip (" ".data) = [] ∧ (" ".data : Str) ≠ [] :=
  ⟨rfl, by decide, by decide⟩

lemma acc2_pres (acc : List Str) (x : Str)
    (hacc : ∀ c ∈ acc, pyStrip c = c ∧ c ≠ []) :
    ∀ c ∈ (if (pyStrip x).isEmpty then acc else acc ++ [pyStrip x]),
      pyStrip c = c ∧ c ≠ [] := by
  split
  · exact hacc
  · rename_i hne
    intro c hc
    rcases List.mem_append.1 hc with hc | hc
    · exact hacc c hc
    · rcases List.mem_singleton.1 hc with rfl
      refine ⟨pyStrip_idem _, ?_⟩
      intro hnil
      apply hne
      rw [hnil]
      rfl

lemma c6_loop_invariant (text : Str) (size overlap : Nat) :
    ∀ (fuel : Nat) (s : Int) (acc : List Str) (l : List Str),
      (∀ c ∈ acc, pyStrip c = c ∧ c ≠ []) →
      chunkLoop text size overlap fuel s acc = some l →
      ∀ c ∈ l, pyStrip c = c ∧ c ≠ [] := by
  intro fuel
  induction fuel with
  | zero =>
    intro s acc l _ h
    simp [chunkLoop] at h
  | succ n ih =>
    intro s acc l hacc h
    rw [chunkLoop] at h
    by_cases hguard : s < (text.length : Int)
    · rw [if_pos hguard] at h
      dsimp only at h
      exact ih _ _ _ (acc2_pres acc _ hacc) h
    · rw [if_neg hguard] at h
      intro c hc
      have : acc = l := by injection h
      exact hacc c (this ▸ hc)

/-- Claim C6 (amended): every chunk produced by the sliding-window path (texts
whose stripped length reaches the window) is trimmed and never
whitespace-only; the short-text path instead returns the raw text unchanged,
which can be untrimmed or all-whitespace (see the counterexample). -/
theorem c6_loop_chunks_trimmed (fuel : Nat) (text : Str) (size overlap : Nat)
    (l : List Str) (hlong : size ≤ (pyStrip text).length)
    (hrun : chunk_documents fuel text size overlap = some l) :
    ∀ c ∈ l, pyStrip c = c ∧ c ≠ [] := by
  rw [chunk_documents] at hrun
  split at hrun
  · rename_i hcond
    split at hrun
    · have : ([] : List Str) = l := by injection hrun
      intro c hc
      rw [← this] at hc
      simp at hc
    · rename_i hne
      exfalso
      simp only [Bool.or_eq_true, decide_eq_true_eq] at hcond
      rcases hcond with hcond | hcond
      · exact hne hcond
      · omega
  · exact c6_loop_invariant text size overlap fuel 0 [] l (by simp) hrun

theorem c6_witness :
    3 ≤ (pyStrip ("abcdef".data)).length ∧
    (∀ c ∈ ["abc".data, "cde".data, "ef".data], pyStrip c = c ∧ c ≠ []) :=
  ⟨by decide,
   c6_loop_chunks_trimmed 10 ("abcdef".data) 3 1 _ (by decide) (by decide)⟩

/-! ### Query classifier (faq_assistant.py lines 217-324)

The Python regexes are translated into explicit matchers over `List Char`.
Word characters follow regex `\w` on the (lowercased ASCII) query text. -/

def isWordChar (c : Char) : Bool := c.isAlphanum || c == '_'

def boundaryOkL : Option Char → Bool
  | none => true
  | some c => !isWordChar c

def boundaryOkR : Str → Bool
  | [] => true
  | c :: _ => !isWordChar c

/-- `re.search(r'\b(w1|w2|...)\b', s)` for alternatives that start and end in
word characters. -/
def searchWordsBAux (ws : List Str) (prev : Option Char) (s : Str) : Bool :=
  (boundaryOkL prev &&
    ws.any (fun w => w.isPrefixOf s && boundaryOkR (s.drop w.length))) ||
  match s with
  | [] => false
  | c :: t => searchWordsBAux ws (some c) t

def searchWordsB (ws : List Str) (s : Str) : Bool := searchWordsBAux ws none s

/-- `.*(t1|t2|...)`: some target occurs further right, with no newline crossed
(regex `.` does not match a newline). -/
def gapTarget (ts : List Str) : Str → Bool
  | [] => ts.any (fun t => t.isPrefixOf ([] : Str))
  | c :: r =>
    ts.any (fun t => t.isPrefixOf (c :: r)) || (!(c == '\n') && gapTarget ts r)

/-- `re.search(r'\b(w1|...).*( t1|...)', s)`: a left-word-boundary alternative
followed, on the same line, by some target alternative. -/
def searchBGapAux (ws ts : List Str) (prev : Option Char) (s : Str) : Bool :=
  (boundaryOkL prev &&
    ws.any (fun w => w.isPrefixOf s && gapTarget ts (s.drop w.length))) ||
  match s with
  | [] => false
  | c :: t => searchBGapAux ws ts (some c) t

def searchBGap (ws ts : List Str) (s : Str) : Bool := searchBGapAux ws ts none s

/-- `re.search('pre(opt)?(a1|a2|...)', s)` for literal pieces. -/
def seqOptAlts (pre opt : Str) (alts : List Str) (s : Str) : Bool :=
  (pre.isPrefixOf s &&
    (alts.any (fun a => a.isPrefixOf (s.drop pre.length)) ||
     (opt.isPrefixOf (s.drop pre.length) &&
      alts.any (fun a => a.isPrefixOf (s.drop (pre.length + opt.length)))))) ||
  match s with
  | [] => false
  | _ :: t => seqOptAlts pre opt alts t

/-- `re.search(r'(w1|...)(?! neg)', s)`: some alternative occurs not
immediately followed by `neg`. -/
def searchNotFollowed (ws : List Str) (neg : Str) (s : Str) : Bool :=
  ws.any (fun w => w.isPrefixOf s && !(neg.isPrefixOf (s.drop w.length))) ||
  match s with
  | [] => false
  | _ :: t => searchNotFollowed ws neg t

def containsAny (ws : List Str) (s : Str) : Bool := ws.any (containsSub s)

def startsWithAny (ws : List Str) (s : Str) : Bool := ws.any (·.isPrefixOf s)

/-- `\s+there` after a leading greeting word. -/
def spacesThenThere : Str → Bool
  | [] => false
  | c :: t =>
    isPySpace c && ("there".data.isPrefixOf ((c :: t).dropWhile isPySpace))

/-- `\s*[!.]*$` after a leading greeting word. -/
def spacesBangEnd (s : Str) : Bool :=
  ((s.dropWhile isPySpace).dropWhile (fun c => c == '!' || c == '.')).isEmpty

/-- `FAQAssistant.is_greeting` (faq_assistant.py lines 217-233): the six
greeting regexes, each anchored at the start of the lowercased stripped
query.  Note all patterns are bare prefixes (no trailing word boundary). -/
def is_greeting (query : Str) : Bool :=
  let q := pyStrip (pyLower query)
  startsWithAny (["hi", "hello", "hey", "greetings", "good morning",
    "good afternoon", "good evening", "good night"].map (fun x => x.data)) q ||
  (["hi", "hello", "hey"].map (fun x => x.data)).any
    (fun w => w.isPrefixOf q && spacesThenThere (q.drop w.length)) ||
  (["hi", "hello", "hey"].map (fun x => x.data)).any
    (fun w => w.isPrefixOf q && spacesBangEnd (q.drop w.length)) ||
  "howdy".data.isPrefixOf q ||
  (("what".data ++ apoS ++ "s up".data).isPrefixOf q ||
    "whats up".data.isPrefixOf q) ||
  "sup".data.isPrefixOf q

def advice_keywords : List Str :=
  ["should i", "should i buy", "should i invest", "should i sell",
   "is it good", "is it bad", "is it worth", "is it safe",
   "recommend", "recommendation", "suggest", "suggestion",
   "better", "best", "worst", "good for me", "suitable for me",
   "compare returns", "which is better", "which fund",
   "should i choose", "advice", "opinion", "think"].map (fun x => x.data)

/-- `FAQAssistant.is_advice_query` (faq_assistant.py lines 235-251). -/
def is_advice_query (query : Str) : Bool :=
  advice_keywords.any (containsSub (pyLower query))

def mf_keywords : List Str :=
  ["mutual fund", "mf", "fund", "scheme", "nav", "aum",
   "expense ratio", "exit load", "sip", "elss", "lock-in",
   "riskometer", "benchmark", "portfolio", "factsheet",
   "hdfc", "amc", "sebi", "amfi", "cas", "statement",
   "tax", "capital gains", "dividend", "redemption",
   "allotment", "units", "investment", "equity", "debt"].map (fun x => x.data)

/-- The `out_of_context_patterns` disjunction of `is_out_of_context`
(faq_assistant.py lines 271-292), pattern by pattern in source order. -/
def ooc_pattern_match (q : Str) : Bool :=
  searchWordsB ["pm".data] q ||
  containsSub q "prime minister".data ||
  containsSub q "president".data ||
  containsSub q "minister".data ||
  containsSub q "capital of".data ||
  containsSub q "capital city".data ||
  containsSub q "favorite sport".data ||
  containsSub q "favourite sport".data ||
  containsSub q "tell me a joke".data ||
  containsSub q "joke".data ||
  containsSub q "weather".data ||
  containsSub q "temperature".data ||
  containsSub q "what is your name".data ||
  containsSub q "who are you".data ||
  containsSub q "what time is it".data ||
  containsSub q "what day is it".data ||
  containsSub q "how are you".data ||
  containsSub q "how do you do".data ||
  seqOptAlts "who is ".data "the ".data
    (["pm", "president", "ceo", "founder", "director"].map (fun x => x.data)) q ||
  seqOptAlts "what is ".data "the ".data
    (["population", "area", "size"].map (fun x => x.data)) q ||
  seqOptAlts "when ".data [] (["is", "was", "will"].map (fun x => x.data)) q ||
  seqOptAlts "where ".data [] (["is", "was", "are"].map (fun x => x.data)) q ||
  containsAny (["cricket", "football", "sports", "movie", "film",
    "music"].map (fun x => x.data)) q ||
  containsAny (["recipe", "food", "cooking", "restaurant"].map (fun x => x.data)) q ||
  searchNotFollowed (["technology", "computer", "phone",
    "laptop"].map (fun x => x.data)) " fund".data q ||
  containsAny (["game", "gaming", "video"].map (fun x => x.data)) q ||
  containsAny (["travel", "tourism", "hotel", "flight"].map (fun x => x.data)) q

/-- The `general_patterns` disjunction (faq_assistant.py line 308): each regex
is anchored with `^`, so it is a prefix test. -/
def general_question (q : Str) : Bool :=
  startsWithAny (["who is", "who was", "what is", "what was", "when is",
    "when was", "where is", "where was", "why is", "why was", "how is",
    "how was"].map (fun x => x.data)) q

/-- `FAQAssistant.is_out_of_context` (faq_assistant.py lines 253-313). -/
def is_out_of_context (query : Str) : Bool :=
  let q := pyLower query
  let hasMf := mf_keywords.any (containsSub q)
  if ooc_pattern_match q && !hasMf then true
  else if is_greeting query then false
  else if is_advice_query query then false
  else if !hasMf && general_question q then true
  else false

/-- `FAQAssistant.classify_query_type` (faq_assistant.py lines 315-324). -/
def classify_query_type (query : Str) : Str :=
  if is_greeting query then "greeting".data
  else if is_advice_query query then "advice".data
  else if is_out_of_context query then "out_of_context".data
  else "factual".data

/-! ### Canned responses and clarification (faq_assistant.py lines 326-349, 475-505) -/

/-- `FAQAssistant.handle_greeting` (faq_assistant.py lines 326-330). -/
def handle_greeting : Str :=
  "Hello! I".data ++ apoS ++
  "m a facts-only mutual fund assistant. I can help you with factual questions about HDFC Mutual Funds, such as expense ratios, exit loads, lock-in periods, riskometers, benchmarks, and more. \n\nWhat would you like to know about HDFC Mutual Funds?".data

/-- `FAQAssistant.handle_out_of_context` (faq_assistant.py lines 332-342). -/
def handle_out_of_context : Str :=
  "I".data ++ apoS ++
  "m designed to answer factual questions about mutual funds only. I can help you with information about HDFC Mutual Funds, including:\n\n• Expense ratios and fees\n• Exit loads and lock-in periods\n• Riskometers and benchmarks\n• How to download statements (CAS, tax reports)\n• Fund details and investment objectives\n\nPlease ask me a question about mutual funds.".data

/-- `FAQAssistant.handle_advice_query` (faq_assistant.py lines 344-349). -/
def handle_advice_query : Str :=
  "I provide factual information only and cannot give investment advice. For guidance on investment decisions, please consult a registered financial advisor. \n\nYou can learn more about mutual funds at the [AMFI Knowledge Center](https://www.amfiindia.com/investor/knowledge-center-info?zoneName=IntroductionMutualFunds).".data

def fund_list_suffix : Str :=
  " We cover:\n• HDFC Large Cap Fund\n• HDFC Flexi Cap Fund\n• HDFC TaxSaver (ELSS)\n• HDFC Hybrid Equity Fund".data

def clarif_min_sip : Str :=
  "Which fund would you like to know about?".data ++ fund_list_suffix

def clarif_expense : Str :=
  "Which fund".data ++ apoS ++ "s expense ratio would you like to know?".data ++
    fund_list_suffix

def clarif_exit_load : Str :=
  "Which fund".data ++ apoS ++ "s exit load would you like to know?".data ++
    fund_list_suffix

def clarif_benchmark : Str :=
  "Which fund".data ++ apoS ++ "s benchmark would you like to know?".data ++
    fund_list_suffix

def clarif_manager : Str :=
  "Which fund".data ++ apoS ++ "s fund manager would you like to know?".data ++
    fund_list_suffix

def clarif_aum : Str :=
  "Which fund".data ++ apoS ++ "s AUM would you like to know?".data ++
    fund_list_suffix

/-- The `ambiguous_patterns` scan of `needs_clarification`
(faq_assistant.py lines 480-503), in source order. -/
def ambiguous_check (q : Str) : Option Str :=
  if searchBGap (["minimum", "min"].map (fun x => x.data))
      (["sip", "investment", "amount"].map (fun x => x.data)) q then
    some clarif_min_sip
  else if searchWordsB (["expense ratio", "ter", "fees"].map (fun x => x.data)) q then
    some clarif_expense
  else if searchWordsB (["exit load", "redemption"].map (fun x => x.data)) q then
    some clarif_exit_load
  else if searchWordsB (["benchmark", "index"].map (fun x => x.data)) q then
    some clarif_benchmark
  else if searchWordsB ["fund manager".data] q then some clarif_manager
  else if searchWordsB ["aum".data] q then some clarif_aum
  else none

def fund_mentions : List Str :=
  ["large cap", "flexi cap", "flexicap", "elss", "taxsaver", "tax saver",
   "hybrid"].map (fun x => x.data)

/-- `FAQAssistant.needs_clarification` (faq_assistant.py lines 475-505);
`some msg` is Python's `(True, msg)`, `none` is `(False, None)`; Python's
local `query_lower` is written inline. -/
def needs_clarification (query : Str) (_hist : List (Str × Str)) : Option Str :=
  if fund_mentions.any (containsSub (pyLower query)) then none
  else ambiguous_check (pyLower query)

/-! ### Citation handling (citation_handler.py lines 31-62) -/

structure CsvRow where
  title : Str
  url : Str
  deriving DecidableEq

/-- The routing metadata stored with each chunk.  Optional fields model
Python's `dict.get` with its defaults. -/
structure ChunkMeta where
  source_id : Option Str
  source_title : Option Str
  url : Option Str
  fund_tag : Option Str
  chunk_index : Nat
  deriving DecidableEq

structure RChunk where
  text : Str
  metadata : ChunkMeta
  deriving DecidableEq

/-- `self.source_metadata[source_id]` lookup against the loaded sources.csv. -/
def lookup_source (db : List (Str × CsvRow)) (sid : Str) : Option CsvRow :=
  (db.find? (fun p => p.1 == sid)).map Prod.snd

/-- `CitationHandler.extract_citation` (citation_handler.py lines 31-56);
the result is `(url, title)`, `none` when no URL is resolvable. -/
def extract_citation (db : List (Str × CsvRow)) (md : ChunkMeta) :
    Option (Str × Str) :=
  let sid := md.source_id.getD []
  let url0 := md.url.getD []
  let title0 := md.source_title.getD []
  let pr :=
    if !sid.isEmpty then
      match lookup_source db sid with
      | some m =>
        ((if url0.isEmpty then m.url else url0),
         (if title0.isEmpty then m.title else title0))
      | none => (url0, title0)
    else (url0, title0)
  let title := if pr.2.isEmpty then md.source_title.getD "Unknown Source".data
    else pr.2
  let url := if pr.1.isEmpty then md.url.getD [] else pr.1
  if url.isEmpty then none else some (url, title)

/-- `CitationHandler.format_citation` (citation_handler.py lines 58-62). -/
def format_citation (url title : Str) : Str :=
  if url.isEmpty || title.isEmpty then []
  else "[".data ++ title ++ "](".data ++ url ++ ")".data

/-! ### Response formatting (faq_assistant.py lines 464-473)

`re.sub(r'\s*Source:.*$', '', answer, flags=re.IGNORECASE)`: without
MULTILINE, `$` only matches at the end of the string or just before a final
newline, so a match is: optional whitespace, then case-insensitive "Source:",
then the rest of the text in which at most a single final newline remains. -/

def sourceTailMatch (rest : Str) : Bool :=
  let r2 := rest.dropWhile isPySpace
  ("source:".data.isPrefixOf (pyLower r2)) &&
    !((r2.drop 7).dropLast.contains '\n')

def sourceKeepTail (rest : Str) : Str :=
  let t := (rest.dropWhile isPySpace).drop 7
  if t.getLast? == some '\n' then "\n".data else []

def strip_source_line : Str → Str
  | [] => []
  | c :: rest =>
    if sourceTailMatch (c :: rest) then sourceKeepTail (c :: rest)
    else c :: strip_source_line rest

/-- `FAQAssistant.format_response` (faq_assistant.py lines 464-473). -/
def format_response (answer url title lastUpdated : Str) : Str :=
  let citation := format_citation url title
  let ans := pyStrip (strip_source_line answer)
  ans ++ "\n\n**Source:** ".data ++ citation ++
    "\n\n*Last updated from sources: ".data ++ lastUpdated ++ "*".data

/-! ### Context cleaning (faq_assistant.py lines 400-415)

Each `re.sub` becomes a left-to-right scan that, at each position, either
consumes a match (never rescanning its replacement, as `re.sub` does) or
moves one character right. -/

def scanSub (f : Str → Option (Nat × Str)) : Str → Str
  | [] => []
  | c :: rest =>
    match f (c :: rest) with
    | some (n, rep) => rep ++ scanSub f (rest.drop (n - 1))
    | none => c :: scanSub f rest
termination_by s => s.length
decreasing_by
  · simp only [List.length_cons, List.length_drop]
    omega
  · simp only [List.length_cons]
    omega

def countLeading (p : Char → Bool) (s : Str) : Nat := (s.takeWhile p).length

/-- `\n{3,}` replaced by two newlines. -/
def nlRunSub (s : Str) : Option (Nat × Str) :=
  let n := countLeading (fun c => c == '\n') s
  if 3 ≤ n then some (n, "\n\n".data) else none

/-- `Page \d+ of \d+` removed. -/
def pageNumSub (s : Str) : Option (Nat × Str) :=
  if "Page ".data.isPrefixOf s then
    let r := s.drop 5
    let d1 := countLeading Char.isDigit r
    if 1 ≤ d1 ∧ " of ".data.isPrefixOf (r.drop d1) then
      let r2 := r.drop (d1 + 4)
      let d2 := countLeading Char.isDigit r2
      if 1 ≤ d2 then some (5 + d1 + 4 + d2, []) else none
    else none
  else none

/-- `Home\s*/\s*[^\n]*` removed (`\s` may cross newlines, `[^\n]*` may not). -/
def homeNavSub (s : Str) : Option (Nat × Str) :=
  if "Home".data.isPrefixOf s then
    let r := s.drop 4
    let sp := countLeading isPySpace r
    match r.drop sp with
    | '/' :: r2 =>
      let sp2 := countLeading isPySpace r2
      let k := countLeading (fun c => !(c == '\n')) (r2.drop sp2)
      some (4 + sp + 1 + sp2 + k, [])
    | _ => none
  else none

/-- Least offset of an occurrence of `w` reachable without crossing a
newline (the lazy `.*?` in the copyright pattern). -/
def findNoNl (w : Str) : Str → Option Nat
  | [] => if w.isPrefixOf ([] : Str) then some 0 else none
  | c :: r =>
    if w.isPrefixOf (c :: r) then some 0
    else if c == '\n' then none
    else (findNoNl w r).map (· + 1)

/-- `© \d{4}.*?All Rights Reserved` removed. -/
def copyrightSub (s : Str) : Option (Nat × Str) :=
  if "© ".data.isPrefixOf s then
    let r := s.drop 2
    if 4 ≤ r.length ∧ (r.take 4).all Char.isDigit then
      match findNoNl "All Rights Reserved".data (r.drop 4) with
      | some m => some (2 + 4 + m + 19, [])
      | none => none
    else none
  else none

/-- `[-=]{3,}` removed. -/
def dashRunSub (s : Str) : Option (Nat × Str) :=
  let n := countLeading (fun c => c == '-' || c == '=') s
  if 3 ≤ n then some (n, []) else none

/-- `' {2,}'` replaced by a single space. -/
def spaceRunSub (s : Str) : Option (Nat × Str) :=
  let n := countLeading (fun c => c == ' ') s
  if 2 ≤ n then some (n, " ".data) else none

/-- `FAQAssistant._clean_context` (faq_assistant.py lines 400-415). -/
def _clean_context (t : Str) : Str :=
  pyStrip (scanSub spaceRunSub (scanSub dashRunSub (scanSub copyrightSub
    (scanSub homeNavSub (scanSub pageNumSub (scanSub nlRunSub t))))))

/-! ### Two-stage generation (faq_assistant.py lines 351-462)

`_call_llm` is the model boundary: a function from (user prompt, system
prompt) to either an exception message (`Except.error`) or the stripped
response text (`Except.ok`). -/

abbrev LLM := Str → Str → Except Str Str

def refine_system : Str :=
  "You are a query refinement assistant. Preserve the specificity of questions. Return only the refined query, no explanations.".data

/-- The `history_context` block of `refine_query` (faq_assistant.py
lines 354-360): the last three exchanges. -/
def history_context (hist : List (Str × Str)) : Str :=
  if hist.isEmpty then []
  else
    "\n\nPrevious conversation:\n".data ++
    ((hist.drop (hist.length - 3)).foldl
      (fun acc e => acc ++ "User: ".data ++ e.1 ++ "\n".data ++
        "Assistant: ".data ++ e.2 ++ "\n".data) [])

def refine_prompt (query : Str) (hist : List (Str × Str)) : Str :=
  "Given the chat history and current question, generate a clear, factual query optimized for retrieving information about mutual funds. Focus on key terms like fund name, metric names (expense ratio, exit load, etc.). Preserve the SPECIFIC nature of the question - if they ask for ONE metric, keep it focused on that ONE metric. Return only the refined query, nothing else.\n\n".data ++
  history_context hist ++ "\n\nCurrent question: ".data ++ query ++
  "\n\nRefined query:".data

/-- `FAQAssistant.refine_query` (faq_assistant.py lines 351-377): Stage 1;
every failure falls back to the original query. -/
def refine_query (llm : LLM) (query : Str) (hist : List (Str × Str)) : Str :=
  match llm (refine_prompt query hist) refine_system with
  | .ok r => if r.isEmpty then query else r
  | .error _ => query

def simple_system : Str :=
  "You are a helpful assistant. Answer questions concisely using only the provided information.".data

/-- The reduced prompt of `_retry_with_simpler_prompt`: only the first chunk,
truncated to its first 1000 characters. -/
def simple_prompt (query : Str) (chunks : List RChunk) : Str :=
  let ctx : Str := match chunks with | [] => [] | c :: _ => c.text.take 1000
  "Answer this question using only the information below:\n\n".data ++ ctx ++
  "\n\nQuestion: ".data ++ query ++ "\n\nAnswer in one sentence:".data

def no_response_msg : Str :=
  "I apologize, but I".data ++ apoS ++
  "m unable to generate a response. The information may not be available in the retrieved context, or there was an issue processing the request.".data

def retry_msg_pre : Str := "I encountered an error: ".data

def retry_msg_suf : Str := ". Please try rephrasing your question.".data

/-- `FAQAssistant._retry_with_simpler_prompt` (faq_assistant.py
lines 379-398): never raises; an exception text survives only as its first
100 characters. -/
def _retry_with_simpler_prompt (llm : LLM) (query : Str)
    (chunks : List RChunk) : Str :=
  match llm (simple_prompt query chunks) simple_system with
  | .ok a => if a.isEmpty then no_response_msg else a
  | .error e => retry_msg_pre ++ e.take 100 ++ retry_msg_suf

def gen_system : Str :=
  "You are a helpful assistant that answers factual questions about mutual funds. Provide natural, conversational answers that are precise and friendly. Answer ONLY what is asked - don".data ++
  apoS ++
  "t add extra information. Be concise (1-2 sentences). Only use information from the provided context.".data

def gen_user_prompt (refined : Str) (chunks : List RChunk) : Str :=
  let context :=
    List.intercalate "\n\n---\n\n".data
      (chunks.map (fun c => _clean_context c.text))
  "Use the following information to answer the question. Provide a complete, natural sentence as your answer.\n\n".data ++
  context ++ "\n\nQuestion: ".data ++ refined ++
  "\n\nImportant: \n1. Answer ONLY the specific question asked\n2. Frame your answer as a complete sentence (e.g., \"The expense ratio of HDFC Large Cap Fund is 0.96%\")\n3. For minimum SIP questions, look for \"Minimum SIP\" amount, not \"additional purchase\" or \"subsequent investment\"\n4. Do not include additional metrics unless specifically requested\n5. Be precise - distinguish between initial minimum and additional purchase amounts\n\nAnswer:".data

/-- `FAQAssistant.generate_answer` (faq_assistant.py lines 417-462): Stage 2.
On an exception, Python re-enters `_retry_with_simpler_prompt` inside a
nested `try`; since the retry catches everything internally, the nested
`except` branches (API-key / quota strings) are unreachable and the result
is always the retry's string. -/
def generate_answer (llm : LLM) (refined : Str) (chunks : List RChunk)
    (_source_url : Str) : Str :=
  match llm (gen_user_prompt refined chunks) gen_system with
  | .ok a => if a.isEmpty then _retry_with_simpler_prompt llm refined chunks
    else a
  | .error _e => _retry_with_simpler_prompt llm refined chunks

/-! ### Retrieval re-ranking (rag_system.py lines 244-315)

The embedding + ChromaDB nearest-neighbor call is the external boundary: its
result list (`all_chunks`, already parsed, at most `k*3` or `k` entries as
the code requests) is the `candidates` parameter.  Everything after the
`query` call is translated directly. -/

def fund_mapping : List (Str × Str) :=
  [("large cap", "LARGE_CAP"), ("flexi cap", "FLEXI_CAP"),
   ("flexicap", "FLEXI_CAP"), ("elss", "ELSS"), ("taxsaver", "ELSS"),
   ("tax saver", "ELSS"), ("hybrid", "HYBRID")].map
    (fun p => (p.1.data, p.2.data))

/-- The fund-mention scan of `retrieve_relevant_chunks` (rag_system.py
lines 252-271): first mapping entry whose key occurs in the lowercased
query. -/
def detect_fund (queryLower : Str) : Option Str :=
  (fund_mapping.find? (fun p => containsSub queryLower p.1)).map Prod.snd

def regTag : Str := "REGULATORY".data

def helpTag : Str := "HELP".data

/-- `RAGSystem.retrieve_relevant_chunks` (rag_system.py lines 244-315) after
the vector query: bucket re-ranking and truncation to `k`. -/
def retrieve_relevant_chunks (candidates : List RChunk) (query : Str)
    (k : Nat) : List RChunk :=
  let fundFilter := detect_fund (pyLower query)
  match fundFilter with
  | some f =>
    let fund_specific := candidates.filter
      (fun c => c.metadata.fund_tag == some f)
    let regulatory := candidates.filter
      (fun c => c.metadata.fund_tag == some regTag)
    let help_docs := candidates.filter
      (fun c => c.metadata.fund_tag == some helpTag)
    let other := candidates.filter (fun c =>
      !(c.metadata.fund_tag == some f) &&
      !(c.metadata.fund_tag == some regTag) &&
      !(c.metadata.fund_tag == some helpTag))
    (fund_specific ++ help_docs ++ other ++ regulatory).take k
  | none =>
    let fund_chunks := candidates.filter (fun c =>
      !(c.metadata.fund_tag == some regTag) &&
      !(c.metadata.fund_tag == some helpTag))
    let regulatory := candidates.filter
      (fun c => c.metadata.fund_tag == some regTag)
    let help_docs := candidates.filter
      (fun c => c.metadata.fund_tag == some helpTag)
    (fund_chunks ++ help_docs ++ regulatory).take k

/-! ### Factual handling and dispatch (faq_assistant.py lines 507-576) -/

def no_info_msg : Str :=
  "I couldn".data ++ apoS ++
  "t find relevant information in my knowledge base. Please try rephrasing your question or ask about a different aspect of HDFC Mutual Funds.".data

def no_source_msg : Str :=
  "I found information but couldn".data ++ apoS ++
  "t retrieve the source. Please try again.".data

/-- `FAQAssistant.handle_factual_query` (faq_assistant.py lines 507-560).
The vector-store auto-initialization (lines 514-530) is file/IO plumbing
outside the shallow embedding; the initialized store's search results are the
`candidates` parameter. -/
def handle_factual_query (db : List (Str × CsvRow)) (lastUpdated : Str)
    (llm : LLM) (candidates : List RChunk) (query : Str)
    (hist : List (Str × Str)) : Str × Option Str :=
  match needs_clarification query hist with
  | some msg => (msg, none)
  | none =>
    let refined := refine_query llm query hist
    match retrieve_relevant_chunks candidates refined 5 with
    | [] => (no_info_msg, none)
    | top :: rest =>
      match extract_citation db top.metadata with
      | none => (no_source_msg, none)
      | some citation =>
        let answer := generate_answer llm refined (top :: rest) citation.1
        (format_response answer citation.1 citation.2 lastUpdated,
         some citation.1)

/-- `FAQAssistant.process_query` (faq_assistant.py lines 562-576); Python's
local `query_type` is written inline. -/
def process_query (db : List (Str × CsvRow)) (lastUpdated : Str) (llm : LLM)
    (candidates : List RChunk) (query : Str) (hist : List (Str × Str)) :
    Str × Option Str :=
  if classify_query_type query == "greeting".data then (handle_greeting, none)
  else if classify_query_type query == "out_of_context".data then
    (handle_out_of_context, none)
  else if classify_query_type query == "advice".data then
    (handle_advice_query, none)
  else handle_factual_query db lastUpdated llm candidates query hist

/-! ### Index building (rag_system.py lines 185-242)

ChromaDB state is the optional list of stored `(id, text)` entries (`none`
when the collection does not exist); the sentence-transformer `encode`
boundary is counted: the build makes exactly one batch `encode` call, the
skip path makes zero.  The document list is `prepare_documents`' output. -/

structure IDoc where
  text : Str
  fund_tag : Option Str
  source_id : Str
  chunk_index : Nat
  deriving DecidableEq

/-- The deterministic chunk id (rag_system.py lines 226-227):
`{fund_tag or GENERAL}_{source_id}_chunk_{chunk_index}`. -/
def chunk_id_of (d : IDoc) : Str :=
  d.fund_tag.getD "GENERAL".data ++ "_".data ++ d.source_id ++
    "_chunk_".data ++ (Nat.repr d.chunk_index).data

def build_entries (docs : List IDoc) : List (Str × Str) :=
  docs.map (fun d => (chunk_id_of d, d.text))

/-- `RAGSystem.create_vector_store` (rag_system.py lines 185-242): returns
the resulting collection entries and the number of `encode` calls made. -/
def create_vector_store (force : Bool) (docs : List IDoc)
    (store : Option (List (Str × Str))) : List (Str × Str) × Nat :=
  let st1 := if force then none else store
  let entries := st1.getD []
  if docs.isEmpty then (entries, 0)
  else if entries.length == 0 || force then (entries ++ build_entries docs, 1)
  else (entries, 0)

/-! ### Claims about the classifier and dispatch -/

/-- Claim C2: `classify_query_type` returns exactly one of the four labels in
the precedence greeting, advice, out_of_context, factual: any advice-phrase
query that is not a greeting is labelled advice even when out-of-context
patterns also match, and a greeting-pattern query is never labelled
out_of_context. -/
theorem c2_classify_precedence (q : Str) :
    (classify_query_type q = "greeting".data ∨
     classify_query_type q = "advice".data ∨
     classify_query_type q = "out_of_context".data ∨
     classify_query_type q = "factual".data) ∧
    (is_advice_query q = true → is_greeting q = false →
      classify_query_type q = "advice".data) ∧
    (is_greeting q = true →
      classify_query_type q = "greeting".data ∧
      classify_query_type q ≠ "out_of_context".data) := by
  refine ⟨?_, ?_, ?_⟩
  · unfold classify_query_type
    split
    · exact Or.inl rfl
    · split
      · exact Or.inr (Or.inl rfl)
      · split
        · exact Or.inr (Or.inr (Or.inl rfl))
        · exact Or.inr (Or.inr (Or.inr rfl))
  · intro ha hg
    unfold classify_query_type
    rw [if_neg (by simp [hg]), if_pos ha]
  · intro hg
    unfold classify_query_type
    rw [if_pos hg]
    exact ⟨rfl, by decide⟩

theorem c2_witness :
    is_advice_query ("should i watch cricket".data) = true ∧
    ooc_pattern_match (pyLower ("should i watch cricket".data)) = true ∧
    classify_query_type ("should i watch cricket".data) = "advice".data ∧
    classify_query_type ("hi".data) = "greeting".data ∧
    classify_query_type ("hi".data) ≠ "out_of_context".data :=
  ⟨by decide, by decide,
   (c2_classify_precedence _).2.1 (by decide) (by decide),
   ((c2_classify_precedence _).2.2 (by decide)).1,
   ((c2_classify_precedence _).2.2 (by decide)).2⟩

/-- The greeting-pattern words that act as bare prefixes in `is_greeting`
(no trailing word boundary in any of the six regexes). -/
def greet_bare_words : List Str :=
  ["hi", "hello", "hey", "greetings", "good morning", "good afternoon",
   "good evening", "good night", "howdy", "sup"].map (fun x => x.data)

/-- Claim C10: any query whose lowercased stripped text merely begins with one
of the greeting words — including in-domain queries such as ones starting
with "high"/"history" (prefix "hi") or "supplementary" (prefix "sup") — is
treated as a greeting, and `process_query` returns the canned greeting with
no citation, independently of the retrieval candidates and the model oracle
(hence no retrieval and no model call can influence the answer). -/
theorem c10_greeting_shortcircuit (q : Str)
    (h : startsWithAny greet_bare_words (pyStrip (pyLower q)) = true) :
    is_greeting q = true ∧
    ∀ (db : List (Str × CsvRow)) (lastUpdated : Str) (llm : LLM)
      (candidates : List RChunk) (hist : List (Str × Str)),
      process_query db lastUpdated llm candidates q hist =
        (handle_greeting, none) := by
  have hg : is_greeting q = true := by
    unfold is_greeting
    simp only [greet_bare_words, startsWithAny, List.map, List.any_cons,
      List.any_nil, Bool.or_eq_true, Bool.or_false] at h ⊢
    tauto
  refine ⟨hg, ?_⟩
  intro db lu llm cands hist
  have hc : classify_query_type q = "greeting".data := by
    unfold classify_query_type
    rw [if_pos hg]
  unfold process_query
  rw [hc]
  rw [if_pos (by simp)]

theorem c10_witness :
    is_greeting ("History of HDFC ELSS fund".data) = true ∧
    process_query [] [] (fun _ _ => Except.error "down".data) []
      ("History of HDFC ELSS fund".data) [] = (handle_greeting, none) ∧
    is_greeting ("supplementary statement download".data) = true := by
  have h1 := c10_greeting_shortcircuit ("History of HDFC ELSS fund".data)
    (by decide)
  have h2 := c10_greeting_shortcircuit
    ("supplementary statement download".data) (by decide)
  exact ⟨h1.1, h1.2 [] [] _ [] [], h2.1⟩

/-- Claim C9: rebuilding the index without `force` when the collection
already holds at least one entry is a no-op with zero `encode` calls; with
`force` it clears and rebuilds fully from the prepared documents (one batch
`encode` call). -/
theorem c9_index_idempotent :
    (∀ (docs : List IDoc) (entries : List (Str × Str)), entries ≠ [] →
      create_vector_store false docs (some entries) = (entries, 0)) ∧
    (∀ (docs : List IDoc) (store : Option (List (Str × Str))), docs ≠ [] →
      create_vector_store true docs store = (build_entries docs, 1)) := by
  constructor
  · intro docs entries hne
    unfold create_vector_store
    by_cases hd : docs.isEmpty
    · simp [hd]
    · have hlen : (entries.length == 0) = false := by
        simp only [beq_eq_false_iff_ne, ne_eq, List.length_eq_zero]
        exact hne
      simp [hd, hlen]
  · intro docs store hne
    unfold create_vector_store
    have hd : docs.isEmpty = false := by simp [List.isEmpty_iff, hne]
    simp [hd]

def c9doc : IDoc := ⟨"fund text".data, some "ELSS".data, "factsheet".data, 0⟩

theorem c9_witness :
    create_vector_store false [c9doc] (some [("id1".data, "t1".data)]) =
      ([("id1".data, "t1".data)], 0) ∧
    create_vector_store true [c9doc] (some [("id1".data, "t1".data)]) =
      (build_entries [c9doc], 1) :=
  ⟨c9_index_idempotent.1 [c9doc] _ (by simp),
   c9_index_idempotent.2 [c9doc] _ (by simp)⟩

/-- Claim C8 (counterexample): "best expense ratio" matches the expense-ratio
metric pattern and names no fund, yet `process_query` answers with the advice
refusal (the advice keyword "best" wins during classification), not with the
canned clarification prompt the claim demands. -/
theorem c8_counterexample :
    process_query [] [] (fun _ _ => Except.error "x".data) []
      ("best expense ratio".data) [] = (handle_advice_query, none) ∧
    searchWordsB (["expense ratio", "ter", "fees"].map (fun x => x.data))
      (pyLower "best expense ratio".data) = true ∧
    fund_mentions.any (containsSub (pyLower "best expense ratio".data)) =
      false ∧
    ambiguous_check (pyLower "best expense ratio".data) =
      some clarif_expense ∧
    handle_advice_query ≠ clarif_expense := by
  exact ⟨by decide, by decide, by decide, by decide, by decide⟩

/-- Claim C8 (amended): only queries classified factual reach the
clarification check; for every factual-classified query that matches a
metric pattern and names no fund, `process_query` short-circuits to the
canned multiple-choice clarification with citation `none`, independent of
the retrieval candidates and the model oracle; and the fund-naming variant
"minimum sip for large cap" is not escalated and stays factual. -/
theorem c8_factual_clarification :
    (∀ (q : Str) (hist : List (Str × Str)) (db : List (Str × CsvRow))
       (lastUpdated : Str) (llm : LLM) (candidates : List RChunk) (msg : Str),
      classify_query_type q = "factual".data →
      needs_clarification q hist = some msg →
      process_query db lastUpdated llm candidates q hist = (msg, none)) ∧
    needs_clarification ("minimum sip for large cap".data) [] = none ∧
    classify_query_type ("minimum sip for large cap".data) =
      "factual".data := by
  refine ⟨?_, by decide, by decide⟩
  intro q hist db lu llm cands msg hcl hnc
  have e1 : (("factual".data : Str) == "greeting".data) = false := by decide
  have e2 : (("factual".data : Str) == "out_of_context".data) = false := by
    decide
  have e3 : (("factual".data : Str) == "advice".data) = false := by decide
  unfold process_query
  rw [hcl]
  simp only [e1, e2, e3, Bool.false_eq_true, if_false]
  simp only [handle_factual_query, hnc]

theorem c8_witness :
    process_query [] [] (fun _ _ => Except.error "x".data) []
      ("minimum sip amount".data) [] = (clarif_min_sip, none) :=
  c8_factual_clarification.1 ("minimum sip amount".data) [] [] [] _ []
    clarif_min_sip (by decide) (by decide)

/-! ### Claim C7: missing citation URL -/

def c7meta : ChunkMeta :=
  ⟨some "elss_factsheet".data, some "HDFC TaxSaver".data, some [],
   some "ELSS".data, 0⟩

def c7chunk : RChunk :=
  ⟨"The lock-in period of HDFC TaxSaver is 3 years.".data, c7meta⟩

def c7ans : Str := "The lock-in period is 3 years.".data

def c7llm : LLM := fun _ _ => Except.ok c7ans

/-- Claim C7 (counterexample): with a top chunk whose metadata has no
resolvable URL, `process_query` does NOT return the grounded answer with the
source line omitted — it returns the fixed "couldn't retrieve the source"
message (with citation `none`) and never generates an answer, even though
the model oracle would have produced one. -/
theorem c7_counterexample :
    process_query [] ("January 1, 2025".data) c7llm [c7chunk]
      ("elss lock in period".data) [] = (no_source_msg, none) ∧
    containsSub no_source_msg c7ans = false ∧
    extract_citation [] c7chunk.metadata = none :=
  ⟨by decide, by decide, by decide⟩

/-- Claim C7 (amended): whenever the top retrieved chunk's citation is not
resolvable (`extract_citation` yields `none`), `handle_factual_query`
returns the fixed message "I found information but couldn't retrieve the
source. Please try again." with citation `none`, skipping answer generation;
no `**Source:**` line occurs in the reply. -/
theorem c7_no_citation_canned_message (db : List (Str × CsvRow))
    (lastUpdated : Str) (llm : LLM) (candidates : List RChunk) (q : Str)
    (hist : List (Str × Str)) (top : RChunk) (rest : List RChunk)
    (hnc : needs_clarification q hist = none)
    (hret : retrieve_relevant_chunks candidates (refine_query llm q hist) 5 =
      top :: rest)
    (hcit : extract_citation db top.metadata = none) :
    handle_factual_query db lastUpdated llm candidates q hist =
      (no_source_msg, none) ∧
    containsSub no_source_msg ("**Source:**".data) = false := by
  constructor
  · simp only [handle_factual_query, hnc, hret, hcit]
  · decide

theorem c7_witness :
    handle_factual_query [] ("January 1, 2025".data) c7llm [c7chunk]
      ("elss lock in period".data) [] = (no_source_msg, none) ∧
    containsSub no_source_msg ("**Source:**".data) = false :=
  c7_no_citation_canned_message [] _ c7llm [c7chunk] _ [] c7chunk []
    (by decide) (by decide) (by decide)

/-! ### Claim C3: Stage-2 failure handling -/

lemma retry_ne_nil (llm : LLM) (q : Str) (chunks : List RChunk) :
    _retry_with_simpler_prompt llm q chunks ≠ [] := by
  unfold _retry_with_simpler_prompt
  cases h : llm (simple_prompt q chunks) simple_system with
  | ok a =>
    dsimp only
    by_cases ha : a.isEmpty = true
    · rw [if_pos ha]
      decide
    · rw [if_neg ha]
      intro hnil
      rw [hnil] at ha
      exact ha rfl
  | error e =>
    intro hnil
    simp [retry_msg_pre, List.append_eq_nil] at hnil

lemma clarification_msg_ne_nil {q : Str} {hist : List (Str × Str)} {msg : Str}
    (h : needs_clarification q hist = some msg) : msg ≠ [] := by
  unfold needs_clarification at h
  split at h
  · exact absurd h (by simp)
  · rename_i hf
    unfold ambiguous_check at h
    split at h
    · injection h with h2; subst h2; decide
    · split at h
      · injection h with h2; subst h2; decide
      · split at h
        · injection h with h2; subst h2; decide
        · split at h
          · injection h with h2; subst h2; decide
          · split at h
            · injection h with h2; subst h2; decide
            · split at h
              · injection h with h2; subst h2; decide
              · exact absurd h (by simp)

lemma format_response_ne_nil (answer url title lastUpdated : Str) :
    format_response answer url title lastUpdated ≠ [] := by
  unfold format_response
  intro h
  simp [List.append_eq_nil] at h

lemma process_query_fst_ne_nil (db : List (Str × CsvRow)) (lastUpdated : Str)
    (llm : LLM) (candidates : List RChunk) (query : Str)
    (hist : List (Str × Str)) :
    (process_query db lastUpdated llm candidates query hist).1 ≠ [] := by
  unfold process_query
  split
  · decide
  · split
    · decide
    · split
      · decide
      · cases hm : needs_clarification query hist with
        | some msg =>
          simp only [handle_factual_query, hm]
          simpa using clarification_msg_ne_nil hm
        | none =>
          cases hr : retrieve_relevant_chunks candidates
              (refine_query llm query hist) 5 with
          | nil =>
            simp only [handle_factual_query, hm, hr]
            decide
          | cons top rest =>
            cases hc : extract_citation db top.metadata with
            | none =>
              simp only [handle_factual_query, hm, hr, hc]
              decide
            | some citation =>
              simp only [handle_factual_query, hm, hr, hc]
              exact format_response_ne_nil _ _ _ _

/-- Claim C3: for a factual query with non-empty retrieved chunks, a failed
or empty Stage-2 call makes `generate_answer` retry exactly once with the
reduced prompt built from the single top chunk truncated to 1000 characters;
the result is always a non-empty string in which raw exception text appears
only as a 100-character prefix, and the whole `process_query` pipeline is a
total function whose answer is never empty (no exception escapes). -/
theorem c3_generate_retry_safety (llm : LLM) (q : Str) (top : RChunk)
    (rest : List RChunk) (u : Str) :
    generate_answer llm q (top :: rest) u ≠ [] ∧
    (∀ e, llm (gen_user_prompt q (top :: rest)) gen_system =
        Except.error e →
      generate_answer llm q (top :: rest) u =
        _retry_with_simpler_prompt llm q (top :: rest)) ∧
    (llm (gen_user_prompt q (top :: rest)) gen_system = Except.ok [] →
      generate_answer llm q (top :: rest) u =
        _retry_with_simpler_prompt llm q (top :: rest)) ∧
    (∀ e, llm (simple_prompt q (top :: rest)) simple_system =
        Except.error e →
      _retry_with_simpler_prompt llm q (top :: rest) =
        retry_msg_pre ++ e.take 100 ++ retry_msg_suf) ∧
    (simple_prompt q (top :: rest) =
      "Answer this question using only the information below:\n\n".data ++
      top.text.take 1000 ++ "\n\nQuestion: ".data ++ q ++
      "\n\nAnswer in one sentence:".data) ∧
    (∀ (db : List (Str × CsvRow)) (lastUpdated : Str)
       (candidates : List RChunk) (hist : List (Str × Str)) (query : Str),
      (process_query db lastUpdated llm candidates query hist).1 ≠ []) := by
  refine ⟨?_, ?_, ?_, ?_, rfl, ?_⟩
  · unfold generate_answer
    cases h : llm (gen_user_prompt q (top :: rest)) gen_system with
    | ok a =>
      dsimp only
      by_cases ha : a.isEmpty = true
      · rw [if_pos ha]
        exact retry_ne_nil llm q (top :: rest)
      · rw [if_neg ha]
        intro hnil
        rw [hnil] at ha
        exact ha rfl
    | error e => exact retry_ne_nil llm q (top :: rest)
  · intro e he
    simp only [generate_answer, he]
  · intro he
    simp [generate_answer, he]
  · intro e he
    simp only [_retry_with_simpler_prompt, he]
  · intro db lu cands hist query
    exact process_query_fst_ne_nil db lu llm cands query hist

def c3llm : LLM := fun _ _ => Except.error "upstream timeout".data

theorem c3_witness :
    generate_answer c3llm ("what is the exit load".data) [c7chunk] [] ≠ [] ∧
    generate_answer c3llm ("what is the exit load".data) [c7chunk] [] =
      _retry_with_simpler_prompt c3llm ("what is the exit load".data)
        [c7chunk] ∧
    _retry_with_simpler_prompt c3llm ("what is the exit load".data)
        [c7chunk] =
      retry_msg_pre ++ ("upstream timeout".data).take 100 ++ retry_msg_suf := by
  have h := c3_generate_retry_safety c3llm ("what is the exit load".data)
    c7chunk [] []
  exact ⟨h.1, h.2.1 _ rfl, h.2.2.2.1 _ rfl⟩


/-! ### Claim C1: fund-specific chunks rank before regulatory chunks -/

lemma idxq_lt_of_right_none {α : Type} (A B : List α) (P : α → Prop)
    (hB : ∀ x ∈ B, ¬ P x) {i : Nat} {x : α}
    (hx : (A ++ B)[i]? = some x) (hP : P x) : i < A.length := by
  by_contra hge
  push_neg at hge
  rw [List.getElem?_append_right hge] at hx
  exact hB x (List.getElem?_mem hx) hP

lemma idxq_ge_of_left_none {α : Type} (A B : List α) (P : α → Prop)
    (hA : ∀ x ∈ A, ¬ P x) {j : Nat} {y : α}
    (hy : (A ++ B)[j]? = some y) (hP : P y) : A.length ≤ j := by
  by_contra hlt
  push_neg at hlt
  rw [List.getElem?_append_left hlt] at hy
  exact hA y (List.getElem?_mem hy) hP

lemma detect_fund_mem {s f : Str} (h : detect_fund s = some f) :
    f = "LARGE_CAP".data ∨ f = "FLEXI_CAP".data ∨ f = "ELSS".data ∨
      f = "HYBRID".data := by
  unfold detect_fund at h
  obtain ⟨p, hp, hf⟩ := Option.map_eq_some'.mp h
  have hmem := List.mem_of_find?_eq_some hp
  simp only [fund_mapping, List.map, List.mem_cons, List.not_mem_nil,
    or_false] at hmem
  rcases hmem with h1 | h1 | h1 | h1 | h1 | h1 | h1 <;> subst h1 <;>
    subst hf <;> simp

lemma detect_fund_not_special {s f : Str} (h : detect_fund s = some f) :
    f ≠ regTag ∧ f ≠ helpTag := by
  rcases detect_fund_mem h with rfl | rfl | rfl | rfl <;>
    exact ⟨by decide, by decide⟩

/-- Claim C1: whenever a fund is detected in the query, the re-ranked result
of `retrieve_relevant_chunks` has length at most `k`, and every returned
chunk tagged with the detected fund comes strictly before every returned
chunk tagged REGULATORY, for arbitrary candidate lists coming from the
vector search. -/
theorem c1_retrieve_fund_before_regulatory (query : Str)
    (candidates : List RChunk) (k : Nat) (f : Str)
    (hf : detect_fund (pyLower query) = some f) :
    (retrieve_relevant_chunks candidates query k).length ≤ k ∧
    (∀ (i j : Nat) (x y : RChunk),
      (retrieve_relevant_chunks candidates query k)[i]? = some x →
      (retrieve_relevant_chunks candidates query k)[j]? = some y →
      x.metadata.fund_tag = some f →
      y.metadata.fund_tag = some regTag →
      i < j) := by
  obtain ⟨hfr, hfh⟩ := detect_fund_not_special hf
  unfold retrieve_relevant_chunks
  rw [hf]
  dsimp only
  set A := candidates.filter (fun c => c.metadata.fund_tag == some f)
    with hA
  set R := candidates.filter (fun c => c.metadata.fund_tag == some regTag)
    with hR
  set H := candidates.filter (fun c => c.metadata.fund_tag == some helpTag)
    with hH
  set O := candidates.filter (fun c =>
    !(c.metadata.fund_tag == some f) &&
    !(c.metadata.fund_tag == some regTag) &&
    !(c.metadata.fund_tag == some helpTag)) with hO
  constructor
  · rw [List.length_take]
    exact min_le_left _ _
  · intro i j x y hxi hyj hPx hPy
    -- lift the indexing from the truncated list to the full bucket list
    have hik : i < k := by
      have := (List.getElem?_eq_some_iff.mp hxi).1
      rw [List.length_take] at this
      omega
    have hjk : j < k := by
      have := (List.getElem?_eq_some_iff.mp hyj).1
      rw [List.length_take] at this
      omega
    have hxi' : (A ++ H ++ O ++ R)[i]? = some x := by
      rw [← List.getElem?_take_of_lt hik]
      exact hxi
    have hyj' : (A ++ H ++ O ++ R)[j]? = some y := by
      rw [← List.getElem?_take_of_lt hjk]
      exact hyj
    have hassoc : A ++ H ++ O ++ R = A ++ (H ++ (O ++ R)) := by
      simp [List.append_assoc]
    rw [hassoc] at hxi' hyj'
    -- no chunk outside the fund-specific bucket carries the fund tag
    have hB : ∀ z ∈ H ++ (O ++ R), ¬ z.metadata.fund_tag = some f := by
      intro z hz
      rcases List.mem_append.1 hz with hz | hz
      · have hc := List.of_mem_filter hz
        simp only [beq_iff_eq] at hc
        rw [hc]
        intro hEq
        exact hfh (Option.some.inj hEq).symm
      · rcases List.mem_append.1 hz with hz | hz
        · have hc := List.of_mem_filter hz
          simp only [Bool.and_eq_true, Bool.not_eq_true',
            beq_eq_false_iff_ne, ne_eq] at hc
          exact hc.1.1
        · have hc := List.of_mem_filter hz
          simp only [beq_iff_eq] at hc
          rw [hc]
          intro hEq
          exact hfr (Option.some.inj hEq).symm
    -- no fund-specific chunk carries the REGULATORY tag
    have hAno : ∀ z ∈ A, ¬ z.metadata.fund_tag = some regTag := by
      intro z hz
      have hc := List.of_mem_filter hz
      simp only [beq_iff_eq] at hc
      rw [hc]
      intro hEq
      exact hfr (Option.some.inj hEq)
    have h1 : i < A.length :=
      idxq_lt_of_right_none A (H ++ (O ++ R)) _ hB hxi' hPx
    have h2 : A.length ≤ j :=
      idxq_ge_of_left_none A (H ++ (O ++ R)) _ hAno hyj' hPy
    omega

def c1elssChunk : RChunk :=
  ⟨"elss details".data,
   ⟨some "s1".data, some "t1".data, some "u1".data, some "ELSS".data, 0⟩⟩

def c1regChunk : RChunk :=
  ⟨"sebi circular".data,
   ⟨some "s2".data, some "t2".data, some "u2".data, some "REGULATORY".data, 0⟩⟩

def c1helpChunk : RChunk :=
  ⟨"how to download cas".data,
   ⟨some "s3".data, some "t3".data, some "u3".data, some "HELP".data, 0⟩⟩

theorem c1_witness :
    detect_fund (pyLower ("elss lock-in period".data)) = some "ELSS".data ∧
    (retrieve_relevant_chunks [c1regChunk, c1elssChunk, c1helpChunk]
        ("elss lock-in period".data) 5).length ≤ 5 ∧
    (∀ (i j : Nat) (x y : RChunk),
      (retrieve_relevant_chunks [c1regChunk, c1elssChunk, c1helpChunk]
        ("elss lock-in period".data) 5)[i]? = some x →
      (retrieve_relevant_chunks [c1regChunk, c1elssChunk, c1helpChunk]
        ("elss lock-in period".data) 5)[j]? = some y →
      x.metadata.fund_tag = some "ELSS".data →
      y.metadata.fund_tag = some "REGULATORY".data →
      i < j) := by
  have h := c1_retrieve_fund_before_regulatory ("elss lock-in period".data)
    [c1regChunk, c1elssChunk, c1helpChunk] 5 ("ELSS".data) (by decide)
  exact ⟨by decide, h.1, h.2⟩
